import Mathlib

/-!
Verification of the financial-data normalization and rating core of the
`finance-analysis` repository (`src/api/main.py`), against its natural
language specification.

The Python values handled by the program (decoded JSON documents) are
embedded as the inductive type `JVal`.  Python numbers are embedded as
rationals: every operation the program performs on them is an order
comparison against an integer constant, which floating point evaluates
exactly as `ℚ` does for the constants involved.  Python exceptions are
embedded as `Except PyExc`.  The network client methods are parametrised
by a `Gateway` function standing for `EDINETClient._request`.
-/

namespace FinanceAnalysis

/-- A decoded JSON / Python value, as handled by `src/api/main.py`.
Objects are association lists in insertion order, as Python dicts are. -/
inductive JVal where
  | null
  | bool (b : Bool)
  | num (q : ℚ)
  | str (s : String)
  | list (items : List JVal)
  | obj (fields : List (String × JVal))

/-- First value stored under a key, `none` when the key is absent:
Python `d[k]`-style lookup underlying `dict.get`. -/
def getV : List (String × JVal) → String → Option JVal
  | [], _ => none
  | (k, v) :: rest, key => if key = k then some v else getV rest key

/-- Python `d.get(k)`: the stored value, `None` when the key is absent. -/
def dGet (fs : List (String × JVal)) (k : String) : JVal :=
  (getV fs k).getD .null

/-- Python `d.get(k, default)`. -/
def dGetD (fs : List (String × JVal)) (k : String) (d : JVal) : JVal :=
  (getV fs k).getD d

/-- Python truthiness of a value, as used by `or` and `if`. -/
def truthy : JVal → Bool
  | .null => false
  | .bool b => b
  | .num q => decide (q ≠ 0)
  | .str s => !s.data.isEmpty
  | .list xs => !xs.isEmpty
  | .obj fs => !fs.isEmpty

/-- Python `a or b` on values: `a` when truthy, else `b`. -/
def pyOr (a b : JVal) : JVal :=
  if truthy a then a else b

/-- A Python exception: either a raised `HTTPException` or any other
exception (carrying its message). -/
inductive PyExc where
  | http (status : Nat) (detail : String)
  | other (msg : String)
deriving DecidableEq

/-- Python `str(e)` on an exception (`starlette.HTTPException.__str__`
renders `"{status_code}: {detail}"`). -/
def PyExc.msg : PyExc → String
  | .http s d => toString s ++ ": " ++ d
  | .other m => m

/-- Result of a piece of Python code that may raise. -/
abbrev PyResult (α : Type) : Type := Except PyExc α

example : getV [("a", .num 1)] "a" = some (.num 1) := rfl
example : truthy (.str "") = false := by decide
example : truthy (.str "X") = true := by decide
example : (JVal.str "X") ≠ (JVal.str "") := by simp

/-- Python iteration `for c in v`: lists yield their elements, strings
yield one-character strings, dicts yield their keys; other values raise
`TypeError`. -/
def pyIter : JVal → PyResult (List JVal)
  | .list xs => .ok xs
  | .str s => .ok (s.data.map fun ch => .str (String.mk [ch]))
  | .obj fs => .ok (fs.map fun kv => .str kv.1)
  | _ => .error (.other "TypeError: object is not iterable")

/-- The normalized search-result item built by
`EDINETClient.search_companies` (src/api/main.py lines 77-82): a dict
with exactly the four keys `edinet_code`, `name`, `securities_code`,
`industry`, here a structure so that no field can be absent. -/
structure CompanySummary where
  edinet_code : JVal
  name : JVal
  securities_code : JVal
  industry : JVal

/-- Field extraction of one raw search item `c`
(src/api/main.py lines 77-82):
`edinet_code = c.get("edinet_code") or c.get("code", "")`,
`name = c.get("name", "")`,
`securities_code = c.get("securities_code") or c.get("sec_code") or ""`,
`industry = c.get("industry") or c.get("sector") or ""`. -/
def normalizeItem (c : List (String × JVal)) : CompanySummary where
  edinet_code := pyOr (dGet c "edinet_code") (dGetD c "code" (.str ""))
  name := dGetD c "name" (.str "")
  securities_code := pyOr (pyOr (dGet c "securities_code") (dGet c "sec_code")) (.str "")
  industry := pyOr (pyOr (dGet c "industry") (dGet c "sector")) (.str "")

/-- The `for c in raw_list` loop of `search_companies`: each element must
be a dict (`c.get` raises `AttributeError` otherwise). -/
def normalizeItems : List JVal → PyResult (List CompanySummary)
  | [] => .ok []
  | .obj c :: rest =>
      match normalizeItems rest with
      | .ok tail => .ok (normalizeItem c :: tail)
      | .error e => .error e
  | _ :: _ => .error (.other "AttributeError: object has no attribute get")

/-- `raw_list = data.get("data") or data.get("companies") or []`
(src/api/main.py line 74). -/
def payloadOf (fs : List (String × JVal)) : JVal :=
  pyOr (pyOr (dGet fs "data") (dGet fs "companies")) (.list [])

/-- Lines 74-82 of src/api/main.py: envelope extraction followed by the
normalization loop, on an already-decoded search document `fs`. -/
def searchCore (fs : List (String × JVal)) : PyResult (List CompanySummary) :=
  match pyIter (payloadOf fs) with
  | .ok items => normalizeItems items
  | .error e => .error e

example :
    searchCore [("data", .list [.obj [("name", .str "N"), ("code", .str "E1")]])] =
      .ok [⟨.str "E1", .str "N", .str "", .str ""⟩] := rfl
example : searchCore [("x", .num 3)] = .ok [] := rfl
example : searchCore [("data", .num 1)] =
    .error (.other "TypeError: object is not iterable") := rfl
example : searchCore [("data", .str "ab")] =
    .error (.other "AttributeError: object has no attribute get") := rfl

/-- Python prefix slice `xs[:n]` on a list, including the negative-`n`
convention (drop `-n` elements from the end). -/
def pySliceTo (xs : List α) (n : Int) : List α :=
  if 0 ≤ n then xs.take n.toNat else xs.take (xs.length - (-n).toNat)

/-- Python `v[:n]` on a value: lists and strings slice, anything else
raises `TypeError`. -/
def pySliceVal (v : JVal) (n : Int) : PyResult JVal :=
  match v with
  | .list xs => .ok (.list (pySliceTo xs n))
  | .str s => .ok (.str (String.mk (pySliceTo s.data n)))
  | _ => .error (.other "TypeError: value is not subscriptable")

/-- The time-series windower of `EDINETClient.get_financials`
(src/api/main.py lines 96-97) restricted to list payloads:
`if years is not None and years > 0: raw_list = raw_list[:int(years)]`. -/
def window (series : List JVal) (count : Option Int) : List JVal :=
  match count with
  | none => series
  | some n => if 0 < n then series.take n.toNat else series

/-- Lines 96-97 of src/api/main.py applied to an arbitrary payload value. -/
def applyYears (v : JVal) (years : Option Int) : PyResult JVal :=
  match years with
  | none => .ok v
  | some n => if 0 < n then pySliceVal v n else .ok v

/-- Python `k in d` on a dict. -/
def keyIn (fs : List (String × JVal)) (k : String) : Bool :=
  (getV fs k).isSome

/-- Python `d[k] = v` on a dict: replace the value in place when the key
exists, append the pair otherwise. -/
def setKey : List (String × JVal) → String → JVal → List (String × JVal)
  | [], k, v => [(k, v)]
  | (k', v') :: rest, k, v =>
      if k = k' then (k', v) :: rest else (k', v') :: setKey rest k v

/-- Lines 94-103 of `EDINETClient.get_financials` (src/api/main.py), on
an already-decoded financials document:
`raw_list = data.get("data") or data.get("financials") or []`,
optional windowing, then
`if "data" in data and "financials" not in data:
   data = {"financials": raw_list, **{k: v for k, v in data.items() if k != "data"}}
 else: data["financials"] = raw_list`.
A non-dict document raises `AttributeError` at `data.get`. -/
def getFinancialsCore (d : JVal) (years : Option Int) : PyResult JVal :=
  match d with
  | .obj fs =>
      match applyYears (pyOr (pyOr (dGet fs "data") (dGet fs "financials")) (.list [])) years with
      | .error e => .error e
      | .ok rawW =>
          if keyIn fs "data" && !keyIn fs "financials" then
            .ok (.obj (("financials", rawW) :: fs.filter fun kv => kv.1 ≠ "data"))
          else
            .ok (.obj (setKey fs "financials" rawW))
  | _ => .error (.other "AttributeError: object has no attribute get")

example :
    getFinancialsCore (.obj [("data", .list [.num 1]), ("x", .bool true)]) none =
      .ok (.obj [("financials", .list [.num 1]), ("x", .bool true)]) := rfl
example :
    getFinancialsCore (.obj [("financials", .list [.num 1, .num 2])]) (some 1) =
      .ok (.obj [("financials", .list [.num 1])]) := rfl
example :
    getFinancialsCore (.obj [("data", .list [.str "A"]), ("financials", .list [.str "B"])]) none =
      .ok (.obj [("data", .list [.str "A"]), ("financials", .list [.str "A"])]) := rfl

/-- `rate_profitability` (src/api/main.py lines 372-383); `none` embeds
Python `None`.  The returned strings are the source's four tier labels:
`"優秀"` = Excellent, `"良好"` = Good, `"普通"` = Average,
`"要改善"` = Needs Improvement, `"N/A"` = Unrated. -/
def rate_profitability : Option ℚ → String
  | none => "N/A"
  | some roe =>
      if roe ≥ 15 then "優秀"
      else if roe ≥ 10 then "良好"
      else if roe ≥ 5 then "普通"
      else "要改善"

/-- `rate_efficiency` (src/api/main.py lines 386-397). -/
def rate_efficiency : Option ℚ → String
  | none => "N/A"
  | some roa =>
      if roa ≥ 10 then "優秀"
      else if roa ≥ 5 then "良好"
      else if roa ≥ 2 then "普通"
      else "要改善"

/-- `rate_stability` (src/api/main.py lines 400-411). -/
def rate_stability : Option ℚ → String
  | none => "N/A"
  | some equity_ratio =>
      if equity_ratio ≥ 50 then "優秀"
      else if equity_ratio ≥ 30 then "良好"
      else if equity_ratio ≥ 20 then "普通"
      else "要改善"

/-- Ordinal position of a rating tier label on the four-step scale
(Unrated sits at 0, outside the ordered tiers). -/
def tierRank (s : String) : Nat :=
  if s = "優秀" then 4
  else if s = "良好" then 3
  else if s = "普通" then 2
  else if s = "要改善" then 1
  else 0

example : rate_profitability (some 15) = "優秀" := by norm_num [rate_profitability]
example : rate_profitability (some (1499/100)) = "良好" := by norm_num [rate_profitability]
example : rate_profitability none = "N/A" := rfl

/-- The upstream gateway `EDINETClient._request` (src/api/main.py lines
42-67), abstracted as a function from endpoint path and query params to a
decoded document or a raised exception.  The network's behaviour is a
parameter; the client and endpoint code below is translated from source. -/
def Gateway : Type := String → List (String × JVal) → Except PyExc JVal

/-- `EDINETClient.get_company_info` (src/api/main.py lines 88-89). -/
def getCompanyInfoClient (g : Gateway) (code : String) : Except PyExc JVal :=
  g ("companies/" ++ code) []

/-- `EDINETClient.get_financials` (src/api/main.py lines 91-103):
fetch the raw document, then normalize its envelope and window it. -/
def getFinancialsClient (g : Gateway) (code : String) (years : Option Int) :
    Except PyExc JVal :=
  match g ("companies/" ++ code ++ "/financials") [] with
  | .ok d => getFinancialsCore d years
  | .error e => .error e

/-- One successful entry appended by the `/compare` loop
(src/api/main.py lines 290-295). -/
structure CompareSuccess where
  code : String
  name : JVal
  info : JVal
  financials : JVal

/-- One failure entry appended by the `/compare` loop
(src/api/main.py lines 297-300). -/
structure CompareError where
  code : String
  error : String

/-- The two partitions returned by `/compare` (src/api/main.py
lines 302-305). -/
structure CompareResult where
  success : List CompareSuccess
  errors : List CompareError

/-- The body of one iteration of the `/compare` loop (src/api/main.py
lines 287-295): fetch detail, fetch financials, then build the entry
(whose `name` lookup itself raises when the detail is not a dict). -/
def compareStep (g : Gateway) (years : Option Int) (code : String) :
    Except PyExc CompareSuccess :=
  match getCompanyInfoClient g code with
  | .error e => .error e
  | .ok info =>
      match getFinancialsClient g code years with
      | .error e => .error e
      | .ok financials =>
          match info with
          | .obj fs => .ok ⟨code, dGet fs "name", info, financials⟩
          | _ => .error (.other "AttributeError: object has no attribute get")

/-- The `for code in company_codes` loop of `/compare` (src/api/main.py
lines 283-300): any exception for one code becomes a
`{"code": code, "error": str(e)}` entry and the loop continues. -/
def compareLoop (g : Gateway) (years : Option Int) : List String → CompareResult
  | [] => ⟨[], []⟩
  | code :: rest =>
      let r := compareLoop g years rest
      match compareStep g years code with
      | .ok s => ⟨s :: r.success, r.errors⟩
      | .error e => ⟨r.success, ⟨code, e.msg⟩ :: r.errors⟩

/-- The upstream endpoints `/compare` requests for a list of codes, in
order: the detail endpoint always, the financials endpoint only when the
detail fetch succeeded (the `do`-block aborts the iteration otherwise). -/
def compareTraceOf (g : Gateway) (codes : List String) : List String :=
  codes.flatMap fun c =>
    ("companies/" ++ c) ::
      match g ("companies/" ++ c) [] with
      | .ok _ => ["companies/" ++ c ++ "/financials"]
      | .error _ => []

/-- The `/compare` endpoint `compare_companies` (src/api/main.py lines
258-305) on an already-split code list, paired with the list of upstream
endpoints it requests. -/
def compareCompanies (g : Gateway) (codes : List String) (years : Option Int) :
    Except PyExc CompareResult × List String :=
  if codes.length < 2 then
    (.error (.http 400 "At least 2 company codes are required"), [])
  else if codes.length > 10 then
    (.error (.http 400 "Maximum 10 companies can be compared at once"), [])
  else
    (.ok (compareLoop g years codes), compareTraceOf g codes)

/-- Whether the `/compare` loop puts `code` into the success partition. -/
def companySucceeds (g : Gateway) (years : Option Int) (code : String) : Bool :=
  match compareStep g years code with
  | .ok _ => true
  | .error _ => false

/-- `valid_metrics` (src/api/main.py line 248). -/
def validMetrics : List String :=
  ["roe", "roa", "sales", "market_cap", "operating_income"]

/-- `EDINETClient.get_ranking` (src/api/main.py lines 105-107). -/
def getRankingClient (g : Gateway) (metric : String) (limit : Int) (order : String) :
    Except PyExc JVal :=
  g ("rankings/" ++ metric) [("limit", .num limit), ("order", .str order)]

/-- The `/rankings/{metric}` endpoint `get_ranking` (src/api/main.py
lines 235-255), paired with the upstream endpoints it requests. -/
def getRankingEndpoint (g : Gateway) (metric : String) (limit : Int) (order : String) :
    Except PyExc JVal × List String :=
  if metric ∈ validMetrics then
    (getRankingClient g metric limit order, ["rankings/" ++ metric])
  else
    (.error (.http 400
      "Invalid metric. Valid options: roe, roa, sales, market_cap, operating_income"), [])

/-- A normalized search item rendered back to the JSON value returned by
`search_companies` (src/api/main.py lines 77-82). -/
def CompanySummary.toJVal (c : CompanySummary) : JVal :=
  .obj [("edinet_code", c.edinet_code), ("name", c.name),
        ("securities_code", c.securities_code), ("industry", c.industry)]

/-- The keyword-less branch of `EDINETClient.search_companies`
(src/api/main.py lines 84-86): list companies upstream with paging. -/
def searchListBranch (g : Gateway) (perPage page : Int) : Except PyExc JVal :=
  g "companies" [("per_page", .num perPage), ("page", .num page)]

/-- `EDINETClient.search_companies` (src/api/main.py lines 69-86) over a
gateway: with a truthy query, fetch `/search?q=`, normalize, and truncate
locally to `per_page`; otherwise fall through to the listing endpoint. -/
def searchCompaniesClient (g : Gateway) (query : Option String)
    (perPage page : Int) : Except PyExc JVal :=
  match query with
  | some q =>
      if q.data.isEmpty then searchListBranch g perPage page
      else
        match g "search" [("q", .str q)] with
        | .error e => .error e
        | .ok (.obj fs) =>
            match searchCore fs with
            | .error e => .error e
            | .ok companies =>
                .ok (.obj [("companies", .list (pySliceTo (companies.map (·.toJVal)) perPage))])
        | .ok _ => .error (.other "AttributeError: object has no attribute get")
  | none => searchListBranch g perPage page

/-- A concrete upstream behaviour used to exercise the endpoints on
closed inputs: every company resolves to the same small document except
company `B`, whose requests answer 404. -/
def gwDemo : Gateway := fun ep _ =>
  if ep = "companies/B" then .error (.http 404 "not found")
  else .ok (.obj [("name", .str "X"), ("financials", .list [.obj []])])

-- Helper lemmas about the association-list model of Python dicts.

theorem getV_setKey_self (fs : List (String × JVal)) (k : String) (v : JVal) :
    getV (setKey fs k v) k = some v := by
  induction fs with
  | nil => simp [setKey, getV]
  | cons p rest ih =>
      obtain ⟨k', v'⟩ := p
      by_cases h : k = k'
      · simp [setKey, h, getV]
      · simp [setKey, h, getV, ih]

theorem getV_setKey_ne (fs : List (String × JVal)) (k : String) (v : JVal)
    (k2 : String) (h : k2 ≠ k) : getV (setKey fs k v) k2 = getV fs k2 := by
  induction fs with
  | nil => simp [setKey, getV, h]
  | cons p rest ih =>
      obtain ⟨k', v'⟩ := p
      by_cases hk : k = k'
      · subst hk
        simp [setKey, getV, h]
      · simp [setKey, hk, getV, ih]

theorem getV_filter_ne (fs : List (String × JVal)) (k k2 : String) (h : k2 ≠ k) :
    getV (fs.filter fun kv => kv.1 ≠ k) k2 = getV fs k2 := by
  induction fs with
  | nil => rfl
  | cons p rest ih =>
      obtain ⟨k', v'⟩ := p
      simp only [ne_eq, decide_not] at ih
      by_cases hk : k' = k
      · subst hk
        simp [List.filter_cons, getV, h, ih]
      · simp [List.filter_cons, hk, getV, ih]

theorem getV_filter_self (fs : List (String × JVal)) (k : String) :
    getV (fs.filter fun kv => kv.1 ≠ k) k = none := by
  induction fs with
  | nil => rfl
  | cons p rest ih =>
      obtain ⟨k', v'⟩ := p
      simp only [ne_eq, decide_not] at ih
      by_cases hk : k' = k
      · subst hk
        simp [List.filter_cons, ih]
      · simp [List.filter_cons, hk, getV, Ne.symm hk, ih]

-- Helper lemmas about the `/compare` loop.

theorem compareStep_code {g : Gateway} {years : Option Int} {code : String}
    {s : CompareSuccess} (h : compareStep g years code = .ok s) : s.code = code := by
  unfold compareStep at h
  repeat' split at h
  all_goals simp_all
  exact h.symm ▸ rfl

theorem compareLoop_success_eq (g : Gateway) (years : Option Int) (codes : List String) :
    (compareLoop g years codes).success =
      codes.filterMap fun c => (compareStep g years c).toOption := by
  induction codes with
  | nil => rfl
  | cons c rest ih =>
      simp only [compareLoop, List.filterMap_cons]
      cases h : compareStep g years c <;> simp [h, Except.toOption, ih]

theorem compareLoop_errors_eq (g : Gateway) (years : Option Int) (codes : List String) :
    (compareLoop g years codes).errors =
      codes.filterMap fun c =>
        match compareStep g years c with
        | .error e => some ⟨c, e.msg⟩
        | .ok _ => none := by
  induction codes with
  | nil => rfl
  | cons c rest ih =>
      simp only [compareLoop, List.filterMap_cons]
      cases h : compareStep g years c <;> simp [h, ih]

theorem compareLoop_success_codes (g : Gateway) (years : Option Int) (codes : List String) :
    (compareLoop g years codes).success.map (·.code) =
      codes.filter (companySucceeds g years) := by
  induction codes with
  | nil => rfl
  | cons c rest ih =>
      simp only [compareLoop, List.filter_cons]
      cases h : compareStep g years c with
      | ok s => simp [h, companySucceeds, ih, compareStep_code h]
      | error e => simp [h, companySucceeds, ih]

theorem compareLoop_errors_codes (g : Gateway) (years : Option Int) (codes : List String) :
    (compareLoop g years codes).errors.map (·.code) =
      codes.filter fun c => !companySucceeds g years c := by
  induction codes with
  | nil => rfl
  | cons c rest ih =>
      simp only [compareLoop, List.filter_cons]
      cases h : compareStep g years c <;> simp [h, companySucceeds, ih]

theorem compareCompanies_valid (g : Gateway) (codes : List String) (years : Option Int)
    (h2 : 2 ≤ codes.length) (h10 : codes.length ≤ 10) :
    compareCompanies g codes years = (.ok (compareLoop g years codes), compareTraceOf g codes) := by
  unfold compareCompanies
  rw [if_neg (by omega), if_neg (by omega)]

/-- C4: the rating classifiers use inclusive lower-bound thresholds
evaluated top-down, so boundary values belong to the higher tier:
ROE 15.0 rates 優秀 (Excellent), ROE 14.99 rates 良好 (Good), an absent
value rates N/A (Unrated); efficiency uses the bounds 10/5/2 and
stability 50/30/20 in the same inclusive way. -/
theorem C4_rating_inclusive_thresholds :
    rate_profitability (some 15) = "優秀" ∧
    rate_profitability (some (1499/100)) = "良好" ∧
    rate_profitability none = "N/A" ∧
    rate_efficiency none = "N/A" ∧
    rate_stability none = "N/A" ∧
    (∀ x : ℚ, (15 ≤ x → rate_profitability (some x) = "優秀") ∧
      (10 ≤ x → x < 15 → rate_profitability (some x) = "良好") ∧
      (5 ≤ x → x < 10 → rate_profitability (some x) = "普通") ∧
      (x < 5 → rate_profitability (some x) = "要改善")) ∧
    (∀ x : ℚ, (10 ≤ x → rate_efficiency (some x) = "優秀") ∧
      (5 ≤ x → x < 10 → rate_efficiency (some x) = "良好") ∧
      (2 ≤ x → x < 5 → rate_efficiency (some x) = "普通") ∧
      (x < 2 → rate_efficiency (some x) = "要改善")) ∧
    (∀ x : ℚ, (50 ≤ x → rate_stability (some x) = "優秀") ∧
      (30 ≤ x → x < 50 → rate_stability (some x) = "良好") ∧
      (20 ≤ x → x < 30 → rate_stability (some x) = "普通") ∧
      (x < 20 → rate_stability (some x) = "要改善")) := by
  refine ⟨by norm_num [rate_profitability], by norm_num [rate_profitability],
    rfl, rfl, rfl, fun x => ⟨?_, ?_, ?_, ?_⟩, fun x => ⟨?_, ?_, ?_, ?_⟩,
    fun x => ⟨?_, ?_, ?_, ?_⟩⟩ <;>
  · intros
    simp only [rate_profitability, rate_efficiency, rate_stability]
    split_ifs <;> first | rfl | linarith

/-- C4 witness: the inclusive-threshold clauses applied at concrete
ratio values. -/
theorem C4_rating_inclusive_thresholds_witness :
    rate_profitability (some 20) = "優秀" ∧
    rate_efficiency (some 7) = "良好" ∧
    rate_stability (some 10) = "要改善" :=
  ⟨(C4_rating_inclusive_thresholds.2.2.2.2.2.1 20).1 (by norm_num),
   (C4_rating_inclusive_thresholds.2.2.2.2.2.2.1 7).2.1 (by norm_num) (by norm_num),
   (C4_rating_inclusive_thresholds.2.2.2.2.2.2.2 10).2.2.2 (by norm_num)⟩

/-- C5: each rating classifier is monotone in the present ratio value
(a larger ratio never gets a lower tier on the 要改善 < 普通 < 良好 < 優秀
scale), and an absent input always rates N/A (Unrated). -/
theorem C5_rating_monotone :
    (∀ x y : ℚ, x ≤ y →
      tierRank (rate_profitability (some x)) ≤ tierRank (rate_profitability (some y))) ∧
    (∀ x y : ℚ, x ≤ y →
      tierRank (rate_efficiency (some x)) ≤ tierRank (rate_efficiency (some y))) ∧
    (∀ x y : ℚ, x ≤ y →
      tierRank (rate_stability (some x)) ≤ tierRank (rate_stability (some y))) ∧
    rate_profitability none = "N/A" ∧
    rate_efficiency none = "N/A" ∧
    rate_stability none = "N/A" := by
  refine ⟨?_, ?_, ?_, rfl, rfl, rfl⟩ <;>
  · intro x y hxy
    simp only [rate_profitability, rate_efficiency, rate_stability]
    split_ifs <;> first | decide | linarith

/-- C5 witness: monotonicity applied at the concrete pair 3 ≤ 12 for
each classifier. -/
theorem C5_rating_monotone_witness :
    tierRank (rate_profitability (some 3)) ≤ tierRank (rate_profitability (some 12)) ∧
    tierRank (rate_efficiency (some 3)) ≤ tierRank (rate_efficiency (some 12)) ∧
    tierRank (rate_stability (some 3)) ≤ tierRank (rate_stability (some 12)) :=
  ⟨C5_rating_monotone.1 3 12 (by norm_num),
   C5_rating_monotone.2.1 3 12 (by norm_num),
   C5_rating_monotone.2.2.1 3 12 (by norm_num)⟩

/-- C6: for a positive count the windower keeps exactly the first
min(length, count) elements in order, failing neither on an empty series
nor when the count exceeds the length; an absent or non-positive count
leaves the series unchanged; windowing twice with the same positive count
is idempotent; and this is exactly what `get_financials` applies to a
list payload. -/
theorem C6_window_spec :
    ∀ (s : List JVal) (n : Int) (c : Option Int),
      (0 < n → window s (some n) = s.take n.toNat) ∧
      (0 < n → (window s (some n)).length = min s.length n.toNat) ∧
      (window s none = s) ∧
      (n ≤ 0 → window s (some n) = s) ∧
      (0 < n → window (window s (some n)) (some n) = window s (some n)) ∧
      (applyYears (.list s) c = .ok (.list (window s c))) := by
  intro s n c
  refine ⟨?_, ?_, rfl, ?_, ?_, ?_⟩
  · intro h
    simp [window, h]
  · intro h
    simp [window, h, List.length_take, Nat.min_comm]
  · intro h
    simp [window, not_lt.mpr h]
  · intro h
    simp [window, h, List.take_take]
  · cases c with
    | none => rfl
    | some m =>
        by_cases hm : 0 < m
        · simp [applyYears, window, pySliceVal, pySliceTo, hm, le_of_lt hm]
        · simp [applyYears, window, hm]

/-- C6 witness: the windower clauses applied to concrete series and
counts. -/
theorem C6_window_spec_witness :
    window [JVal.num 1, .num 2, .num 3] (some 2) = [JVal.num 1, .num 2] ∧
    (window [JVal.num 7] (some 5)).length = min 1 5 ∧
    window ([] : List JVal) (some 3) = [] ∧
    window [JVal.num 1, .num 2] (some 0) = [JVal.num 1, .num 2] ∧
    window (window [JVal.num 1, .num 2, .num 3] (some 2)) (some 2) =
      window [JVal.num 1, .num 2, .num 3] (some 2) :=
  ⟨((C6_window_spec [JVal.num 1, .num 2, .num 3] 2 none).1 (by norm_num)).trans rfl,
   ((C6_window_spec [JVal.num 7] 5 none).2.1 (by norm_num)).trans (by norm_num),
   ((C6_window_spec [] 3 none).1 (by norm_num)).trans rfl,
   (C6_window_spec [JVal.num 1, .num 2] 0 none).2.2.2.1 (by norm_num),
   (C6_window_spec [JVal.num 1, .num 2, .num 3] 2 none).2.2.2.2.1 (by norm_num)⟩

/-- C7: `/compare` validates the identifier count before any upstream
fetch: fewer than 2 codes or more than 10 codes yield an HTTP 400
validation error with an empty request trace, while any count in [2,10]
passes validation and runs the batch. -/
theorem C7_compare_count_validation :
    ∀ (g : Gateway) (codes : List String) (years : Option Int),
      (codes.length < 2 →
        compareCompanies g codes years =
          (.error (.http 400 "At least 2 company codes are required"), [])) ∧
      (10 < codes.length →
        compareCompanies g codes years =
          (.error (.http 400 "Maximum 10 companies can be compared at once"), [])) ∧
      (2 ≤ codes.length → codes.length ≤ 10 →
        compareCompanies g codes years =
          (.ok (compareLoop g years codes), compareTraceOf g codes)) := by
  intro g codes years
  refine ⟨fun h => ?_, fun h => ?_,
    fun h2 h10 => compareCompanies_valid g codes years h2 h10⟩
  · unfold compareCompanies
    rw [if_pos h]
  · unfold compareCompanies
    rw [if_neg (by omega), if_pos (by omega)]

/-- C7 witness: the three validation clauses at concrete code lists of
length 1, 11 and 2. -/
theorem C7_compare_count_validation_witness :
    compareCompanies gwDemo ["A"] none =
      (.error (.http 400 "At least 2 company codes are required"), []) ∧
    compareCompanies gwDemo ["A", "B", "C", "D", "E", "F", "G", "H", "I", "J", "K"] none =
      (.error (.http 400 "Maximum 10 companies can be compared at once"), []) ∧
    compareCompanies gwDemo ["A", "C"] none =
      (.ok (compareLoop gwDemo none ["A", "C"]), compareTraceOf gwDemo ["A", "C"]) :=
  ⟨(C7_compare_count_validation gwDemo ["A"] none).1 (by decide),
   (C7_compare_count_validation gwDemo
     ["A", "B", "C", "D", "E", "F", "G", "H", "I", "J", "K"] none).2.1 (by decide),
   (C7_compare_count_validation gwDemo ["A", "C"] none).2.2 (by decide) (by decide)⟩

/-- C8: within a validated `/compare` batch each identifier lands in
exactly one partition: the success partition is exactly the ordered
sublist of codes whose fetches succeed, the error partition records one
`{code, str(e)}` entry per failing code, both preserve input order, keep
duplicates, and one failure never aborts the rest of the batch. -/
theorem C8_compare_partition :
    ∀ (g : Gateway) (codes : List String) (years : Option Int),
      2 ≤ codes.length → codes.length ≤ 10 →
      (compareCompanies g codes years).1 = .ok (compareLoop g years codes) ∧
      (compareLoop g years codes).success =
        (codes.filterMap fun c => (compareStep g years c).toOption) ∧
      (compareLoop g years codes).errors =
        (codes.filterMap fun c =>
          match compareStep g years c with
          | .error e => some ⟨c, e.msg⟩
          | .ok _ => none) ∧
      (compareLoop g years codes).success.map (·.code) =
        codes.filter (companySucceeds g years) ∧
      (compareLoop g years codes).errors.map (·.code) =
        codes.filter (fun c => !companySucceeds g years c) := by
  intro g codes years h2 h10
  refine ⟨?_, compareLoop_success_eq g years codes, compareLoop_errors_eq g years codes,
    compareLoop_success_codes g years codes, compareLoop_errors_codes g years codes⟩
  rw [compareCompanies_valid g codes years h2 h10]

/-- C8 witness: against the demo upstream where only company B is
unresolvable, comparing [A, B, C] yields 2 successes and 1 failure in
input order. -/
theorem C8_compare_partition_witness :
    (compareLoop gwDemo none ["A", "B", "C"]).success.map (·.code) = ["A", "C"] ∧
    (compareLoop gwDemo none ["A", "B", "C"]).errors.map (·.code) = ["B"] ∧
    (compareCompanies gwDemo ["A", "B", "C"] none).1 =
      .ok (compareLoop gwDemo none ["A", "B", "C"]) :=
  have h := C8_compare_partition gwDemo ["A", "B", "C"] none (by decide) (by decide)
  ⟨h.2.2.2.1.trans (by decide), h.2.2.2.2.trans (by decide), h.1⟩

/-- C9: `/rankings/{metric}` rejects a metric outside the known set with
an HTTP 400 validation error and an empty request trace — the invalid
metric is never forwarded upstream. -/
theorem C9_ranking_metric_validation :
    ∀ (g : Gateway) (metric : String) (limit : Int) (order : String),
      metric ∉ validMetrics →
      getRankingEndpoint g metric limit order =
        (.error (.http 400
          "Invalid metric. Valid options: roe, roa, sales, market_cap, operating_income"),
         []) := by
  intro g metric limit order h
  unfold getRankingEndpoint
  rw [if_neg h]

/-- C9 witness: the validation clause at the concrete metric
`invalid_metric`. -/
theorem C9_ranking_metric_validation_witness :
    getRankingEndpoint gwDemo "invalid_metric" 10 "desc" =
      (.error (.http 400
        "Invalid metric. Valid options: roe, roa, sales, market_cap, operating_income"),
       []) :=
  C9_ranking_metric_validation gwDemo "invalid_metric" 10 "desc" (by decide)

/-- C10: with a non-empty query the page argument cannot influence the
search result: two calls differing only in the page value, against the
same upstream behaviour, return identical documents, because only the
query is forwarded upstream and per_page truncation is local. -/
theorem C10_search_page_noninterference :
    ∀ (g : Gateway) (q : String) (perPage p1 p2 : Int),
      q ≠ "" →
      searchCompaniesClient g (some q) perPage p1 =
        searchCompaniesClient g (some q) perPage p2 := by
  intro g q perPage p1 p2 hq
  have hd : q.data.isEmpty = false := by
    cases q with
    | mk l =>
        cases l with
        | nil => exact absurd rfl hq
        | cons a b => rfl
  simp [searchCompaniesClient, hd]

/-- C10 witness: the non-interference equation at a concrete query and
pages 1 and 2. -/
theorem C10_search_page_noninterference_witness :
    searchCompaniesClient gwDemo (some "x") 10 1 =
      searchCompaniesClient gwDemo (some "x") 10 2 :=
  C10_search_page_noninterference gwDemo "x" 10 1 2 (by decide)

/-- C1 counterexample: the name field is NOT produced by a two-key
synonym set.  No pair of distinct keys follows the claimed preference
pattern (first key with a truthy value wins, empty string when both keys
are missing) for the normalizer's name field on every item: the code
reads the single key `name` only. -/
theorem C1_counterexample :
    ¬ ∃ k1 k2 : String, k1 ≠ k2 ∧
      (∀ c, truthy (dGet c k1) = true → (normalizeItem c).name = dGet c k1) ∧
      (∀ c, truthy (dGet c k1) = false → truthy (dGet c k2) = true →
        (normalizeItem c).name = dGet c k2) ∧
      (∀ c, getV c k1 = none → getV c k2 = none →
        (normalizeItem c).name = .str "") := by
  rintro ⟨k1, k2, hne, h1, h2, h3⟩
  by_cases hk1 : k1 = "name"
  · subst hk1
    have hk2 : "name" ≠ k2 := hne
    have hx := h2 [(k2, JVal.bool true)]
      (by simp [dGet, getV, hk2, truthy])
      (by simp [dGet, getV, truthy])
    simp [normalizeItem, dGetD, dGet, getV, hk2] at hx
  · have hx := h1 [(k1, JVal.bool true), ("name", JVal.str "Y")]
      (by simp [dGet, getV, truthy])
    simp [normalizeItem, dGetD, dGet, getV, Ne.symm hk1] at hx

/-- C1 (amended): identifier, securities code and industry each follow
the first-truthy preference over their own two-key synonym set, with
empty string when both keys are missing (for securities code and
industry even whenever both values are falsy); the name field is taken
from the single key `name`, empty string when that key is missing; and a
normalized item always carries all four fields, being a structure. -/
theorem C1_field_synonyms (c : List (String × JVal)) :
    (truthy (dGet c "edinet_code") = true →
      (normalizeItem c).edinet_code = dGet c "edinet_code") ∧
    (truthy (dGet c "edinet_code") = false → truthy (dGet c "code") = true →
      (normalizeItem c).edinet_code = dGet c "code") ∧
    (getV c "edinet_code" = none → getV c "code" = none →
      (normalizeItem c).edinet_code = .str "") ∧
    (∀ v, getV c "name" = some v → (normalizeItem c).name = v) ∧
    (getV c "name" = none → (normalizeItem c).name = .str "") ∧
    (truthy (dGet c "securities_code") = true →
      (normalizeItem c).securities_code = dGet c "securities_code") ∧
    (truthy (dGet c "securities_code") = false → truthy (dGet c "sec_code") = true →
      (normalizeItem c).securities_code = dGet c "sec_code") ∧
    (truthy (dGet c "securities_code") = false → truthy (dGet c "sec_code") = false →
      (normalizeItem c).securities_code = .str "") ∧
    (truthy (dGet c "industry") = true →
      (normalizeItem c).industry = dGet c "industry") ∧
    (truthy (dGet c "industry") = false → truthy (dGet c "sector") = true →
      (normalizeItem c).industry = dGet c "sector") ∧
    (truthy (dGet c "industry") = false → truthy (dGet c "sector") = false →
      (normalizeItem c).industry = .str "") := by
  refine ⟨?_, ?_, ?_, ?_, ?_, ?_, ?_, ?_, ?_, ?_, ?_⟩
  · intro h
    simp [normalizeItem, pyOr, h]
  · intro h1 h2
    simp only [dGet] at h1 h2
    cases hv : getV c "code" with
    | none => simp [hv, truthy] at h2
    | some v => simp [normalizeItem, pyOr, dGetD, dGet, h1, hv]
  · intro h1 h2
    simp [normalizeItem, pyOr, dGet, dGetD, h1, h2, truthy]
  · intro v hv
    simp [normalizeItem, dGetD, hv]
  · intro hv
    simp [normalizeItem, dGetD, hv]
  · intro h
    simp [normalizeItem, pyOr, h]
  · intro h1 h2
    simp [normalizeItem, pyOr, h1, h2]
  · intro h1 h2
    simp [normalizeItem, pyOr, h1, h2]
  · intro h
    simp [normalizeItem, pyOr, h]
  · intro h1 h2
    simp [normalizeItem, pyOr, h1, h2]
  · intro h1 h2
    simp [normalizeItem, pyOr, h1, h2]

/-- C1 witness: the amended field rules at a concrete item that has only
the fallback identifier key and a name. -/
theorem C1_field_synonyms_witness :
    (normalizeItem [("code", JVal.str "E1"), ("name", JVal.str "N")]).edinet_code =
      JVal.str "E1" ∧
    (normalizeItem [("code", JVal.str "E1"), ("name", JVal.str "N")]).name =
      JVal.str "N" ∧
    (normalizeItem [("code", JVal.str "E1"), ("name", JVal.str "N")]).securities_code =
      JVal.str "" ∧
    (normalizeItem [("code", JVal.str "E1"), ("name", JVal.str "N")]).industry =
      JVal.str "" :=
  have h := C1_field_synonyms [("code", JVal.str "E1"), ("name", JVal.str "N")]
  ⟨(h.2.1 (by decide) (by decide)).trans rfl,
   h.2.2.2.1 (JVal.str "N") rfl,
   h.2.2.2.2.2.2.2.1 (by decide) (by decide),
   h.2.2.2.2.2.2.2.2.2.2 (by decide) (by decide)⟩

/-- C2 counterexample: a truthy non-list value under the envelope key
makes search normalization raise a TypeError instead of yielding the
empty sequence, so the malformed-payload clause of the claim is false. -/
theorem C2_counterexample :
    searchCore [("data", JVal.num 1)] =
      .error (.other "TypeError: object is not iterable") ∧
    searchCore [("data", JVal.num 1)] ≠ .ok [] :=
  ⟨rfl, fun h => Except.noConfusion h⟩

/-- C2 (amended): the search normalizer takes its payload from the first
of the two envelope keys (`data`, then `companies`) whose value is
truthy; a list payload yields the same normalized sequence under either
key; when neither key holds a truthy value the result is the empty
sequence; but a truthy non-list value under the preferred key makes
normalization raise rather than return empty. -/
theorem C2_envelope_preference (fs : List (String × JVal)) :
    (∀ xs, searchCore [("data", JVal.list xs)] =
      searchCore [("companies", JVal.list xs)]) ∧
    (truthy (dGet fs "data") = false → truthy (dGet fs "companies") = false →
      searchCore fs = .ok []) ∧
    (truthy (dGet fs "data") = true → payloadOf fs = dGet fs "data") ∧
    (truthy (dGet fs "data") = false → truthy (dGet fs "companies") = true →
      payloadOf fs = dGet fs "companies") ∧
    (truthy (dGet fs "data") = true → (∀ xs, dGet fs "data" ≠ JVal.list xs) →
      ∃ e, searchCore fs = .error e) := by
  refine ⟨?_, ?_, ?_, ?_, ?_⟩
  · intro xs
    cases xs <;> rfl
  · intro h1 h2
    simp [searchCore, payloadOf, pyOr, h1, h2, pyIter, normalizeItems]
  · intro h
    simp [payloadOf, pyOr, h]
  · intro h1 h2
    simp [payloadOf, pyOr, h1, h2]
  · intro h htl
    have hp : payloadOf fs = dGet fs "data" := by simp [payloadOf, pyOr, h]
    unfold searchCore
    rw [hp]
    cases v : dGet fs "data" with
    | null =>
        rw [v] at h
        simp [truthy] at h
    | bool b => exact ⟨_, rfl⟩
    | num q => exact ⟨_, rfl⟩
    | str s =>
        rw [v] at h
        cases hd : s.data with
        | nil => simp [truthy, hd] at h
        | cons ch t =>
            exact ⟨PyExc.other "AttributeError: object has no attribute get",
              by simp [pyIter, hd, normalizeItems]⟩
    | obj gs =>
        rw [v] at h
        cases hg : gs with
        | nil =>
            subst hg
            simp [truthy] at h
        | cons p t =>
            exact ⟨PyExc.other "AttributeError: object has no attribute get",
              by simp [pyIter, hg, normalizeItems]⟩
    | list xs => exact absurd v (htl xs)

/-- C2 witness: the amended clauses at concrete documents — the same
payload under either key, a document with neither envelope key, a truthy
`data` payload, and a truthy non-list payload that raises. -/
theorem C2_envelope_preference_witness :
    searchCore [("data", JVal.list [JVal.obj []])] =
      searchCore [("companies", JVal.list [JVal.obj []])] ∧
    searchCore [("x", JVal.null)] = .ok [] ∧
    payloadOf [("data", JVal.list [JVal.obj []])] =
      dGet [("data", JVal.list [JVal.obj []])] "data" ∧
    (∃ e, searchCore [("data", JVal.bool true)] = .error e) :=
  ⟨(C2_envelope_preference []).1 [JVal.obj []],
   (C2_envelope_preference [("x", JVal.null)]).2.1 (by decide) (by decide),
   (C2_envelope_preference [("data", JVal.list [JVal.obj []])]).2.2.1 (by decide),
   (C2_envelope_preference [("data", JVal.bool true)]).2.2.2.2 (by decide)
     (fun xs => by simp [dGet, getV])⟩

/-- C3 counterexample: on a document carrying payload lists under BOTH
envelope keys, the canonical `financials` value is overwritten with the
`data` list instead of being left as-is, and that list then sits under
both keys — duplicated under another key. -/
theorem C3_counterexample :
    getFinancialsCore
      (.obj [("data", JVal.list [JVal.str "A"]), ("financials", JVal.list [JVal.str "B"])])
      none =
      .ok (.obj [("data", JVal.list [JVal.str "A"]), ("financials", JVal.list [JVal.str "A"])]) ∧
    JVal.list [JVal.str "A"] ≠ JVal.list [JVal.str "B"] :=
  ⟨rfl, by simp⟩

/-- C3 (amended): when the payload list sits only under the non-canonical
`data` key, the output document carries it under the canonical
`financials` key, drops `data`, and preserves every other top-level field
unchanged; when only the canonical key holds the list, its value is left
as-is with all other fields preserved and nothing duplicated; but when
both keys are present and the `data` list is non-empty, the canonical
value is overwritten with the `data` list, which remains under both
keys. -/
theorem C3_envelope_rewrite (fs : List (String × JVal)) (xs : List JVal) :
    (getV fs "data" = some (.list xs) → getV fs "financials" = none →
      ∃ out, getFinancialsCore (.obj fs) none = .ok (.obj out) ∧
        getV out "financials" = some (.list xs) ∧
        getV out "data" = none ∧
        ∀ k, k ≠ "data" → k ≠ "financials" → getV out k = getV fs k) ∧
    (getV fs "data" = none → getV fs "financials" = some (.list xs) →
      ∃ out, getFinancialsCore (.obj fs) none = .ok (.obj out) ∧
        getV out "financials" = some (.list xs) ∧
        getV out "data" = none ∧
        ∀ k, k ≠ "financials" → getV out k = getV fs k) ∧
    (∀ v, getV fs "data" = some (.list xs) → xs ≠ [] →
      getV fs "financials" = some v →
      ∃ out, getFinancialsCore (.obj fs) none = .ok (.obj out) ∧
        getV out "financials" = some (.list xs) ∧
        getV out "data" = some (.list xs) ∧
        ∀ k, k ≠ "data" → k ≠ "financials" → getV out k = getV fs k) := by
  refine ⟨?_, ?_, ?_⟩
  · intro h1 h2
    have hraw : pyOr (pyOr (JVal.list xs) JVal.null) (JVal.list []) = .list xs := by
      cases xs <;> rfl
    refine ⟨("financials", .list xs) :: fs.filter (fun kv => kv.1 ≠ "data"), ?_, ?_, ?_, ?_⟩
    · simp [getFinancialsCore, dGet, keyIn, h1, h2, applyYears, hraw]
    · simp [getV]
    · have hf := getV_filter_self fs "data"
      simp only [ne_eq, decide_not] at hf
      simp [getV, hf]
    · intro k hk1 hk2
      have hf := getV_filter_ne fs "data" k hk1
      simp only [ne_eq, decide_not] at hf
      simp [getV, hk2, hf]
  · intro h1 h2
    have hraw : pyOr (pyOr JVal.null (JVal.list xs)) (JVal.list []) = .list xs := by
      cases xs <;> rfl
    refine ⟨setKey fs "financials" (.list xs), ?_, ?_, ?_, ?_⟩
    · simp [getFinancialsCore, dGet, keyIn, h1, h2, applyYears, hraw]
    · exact getV_setKey_self fs "financials" (.list xs)
    · rw [getV_setKey_ne fs "financials" (.list xs) "data" (by decide)]
      exact h1
    · intro k hk
      exact getV_setKey_ne fs "financials" (.list xs) k hk
  · intro v h1 hxs h2
    have ht : truthy (.list xs) = true := by
      cases xs with
      | nil => exact absurd rfl hxs
      | cons a t => rfl
    have hraw : pyOr (pyOr (JVal.list xs) (dGet fs "financials")) (JVal.list []) = .list xs := by
      simp [pyOr, ht]
    refine ⟨setKey fs "financials" (.list xs), ?_, ?_, ?_, ?_⟩
    · simp [getFinancialsCore, dGet, keyIn, h1, h2, applyYears, hraw, pyOr, ht]
    · exact getV_setKey_self fs "financials" (.list xs)
    · rw [getV_setKey_ne fs "financials" (.list xs) "data" (by decide)]
      exact h1
    · intro k hk1 hk2
      exact getV_setKey_ne fs "financials" (.list xs) k hk2

/-- C3 witness: the amended clauses at three concrete documents — payload
under `data` only (with a sibling field), under `financials` only, and
under both keys. -/
theorem C3_envelope_rewrite_witness :
    (∃ out,
      getFinancialsCore (.obj [("data", JVal.list [JVal.num 1]), ("x", JVal.bool true)]) none =
        .ok (.obj out) ∧
      getV out "financials" = some (JVal.list [JVal.num 1]) ∧
      getV out "data" = none ∧
      ∀ k, k ≠ "data" → k ≠ "financials" →
        getV out k = getV [("data", JVal.list [JVal.num 1]), ("x", JVal.bool true)] k) ∧
    (∃ out,
      getFinancialsCore (.obj [("financials", JVal.list [JVal.num 2])]) none =
        .ok (.obj out) ∧
      getV out "financials" = some (JVal.list [JVal.num 2]) ∧
      getV out "data" = none ∧
      ∀ k, k ≠ "financials" →
        getV out k = getV [("financials", JVal.list [JVal.num 2])] k) ∧
    (∃ out,
      getFinancialsCore
        (.obj [("data", JVal.list [JVal.str "A"]), ("financials", JVal.list [JVal.str "B"])])
        none =
        .ok (.obj out) ∧
      getV out "financials" = some (JVal.list [JVal.str "A"]) ∧
      getV out "data" = some (JVal.list [JVal.str "A"]) ∧
      ∀ k, k ≠ "data" → k ≠ "financials" →
        getV out k =
          getV [("data", JVal.list [JVal.str "A"]), ("financials", JVal.list [JVal.str "B"])] k) :=
  ⟨(C3_envelope_rewrite [("data", JVal.list [JVal.num 1]), ("x", JVal.bool true)]
      [JVal.num 1]).1 rfl rfl,
   (C3_envelope_rewrite [("financials", JVal.list [JVal.num 2])] [JVal.num 2]).2.1 rfl rfl,
   (C3_envelope_rewrite
      [("data", JVal.list [JVal.str "A"]), ("financials", JVal.list [JVal.str "B"])]
      [JVal.str "A"]).2.2 (JVal.list [JVal.str "B"]) rfl (by simp) rfl⟩

end FinanceAnalysis
